import Mathlib

/-!
Verification of the Sparkify data-lake ETL job (`etl.py`).

The script is a fixed two-stage batch pipeline over two JSON datasets:

* `process_song_data` reads the song catalog and derives the `songs` and
  `artists` tables (projection + `dropDuplicates` on the key column);
* `process_log_data` reads the event logs, filters to `page == 'NextSong'`,
  derives `users` and `time`, and joins events to songs on
  `song_df.title == df.song` to derive `songplays`.

The shallow embedding below models dataframes as Lean lists of typed
records, `dropDuplicates([k])` as keep-first-per-key deduplication (Spark
keeps an arbitrary representative; every property proved here is
independent of which one), the per-row UDFs `get_timestamp` and
`get_datetime` as pure functions of the millisecond timestamp
(`datetime.fromtimestamp` is modelled at UTC), and column selection on the
joined frame as name-based resolution, exactly as Spark's analyzer performs
it.  Name-based resolution matters because the source selects
`col('ssessionId')` — a misspelling of `sessionId` — which makes the
`songplays` selection fail for every input.

Machine floats appear in one place: the UDF `lambda x: str(int(int(x)/1000))`
divides with Python float division.  `fl` below is IEEE-754 binary64
round-to-nearest-even applied to an exact rational, which is exactly what
CPython's correctly-rounded `int / int` division produces in the normal
range used here.
-/

/-! ### Generic table operations -/

/-- Keep-first-per-key deduplication, carrying the set of keys already
emitted.  Models Spark `dropDuplicates([key])` (which keeps one arbitrary
representative per key; the model fixes the first). -/
def dropDuplicatesByAux {α κ : Type} [DecidableEq κ] (key : α → κ) :
    List κ → List α → List α
  | _, [] => []
  | seen, x :: xs =>
    if key x ∈ seen then dropDuplicatesByAux key seen xs
    else x :: dropDuplicatesByAux key (key x :: seen) xs

/-- `df.dropDuplicates([key])`. -/
def dropDuplicatesBy {α κ : Type} [DecidableEq κ] (key : α → κ) (l : List α) : List α :=
  dropDuplicatesByAux key [] l

/-! ### Input records

Field sets follow the raw JSON schemas the script reads (the catalog file
carries both song and artist attributes in one record; the event log carries
the eleven attributes used by the script). -/

/-- One raw song-catalog JSON record (`spark.read.json(song_data)`). -/
structure CatalogRecord where
  song_id : String
  title : String
  artist_id : String
  year : Int
  duration : Rat
  artist_name : String
  artist_location : String
  artist_latitude : Option Rat
  artist_longitude : Option Rat
  deriving DecidableEq, Repr

/-- One raw event-log JSON record (`spark.read.json(log_data)`). -/
structure EventRecord where
  userId : String
  firstName : String
  lastName : String
  gender : String
  level : String
  ts : Nat
  page : String
  song : String
  location : String
  userAgent : String
  sessionId : Int
  deriving DecidableEq, Repr

/-! ### The two row-level UDFs

`get_timestamp = udf(lambda x: str(int(int(x)/1000)))` and
`get_datetime = udf(lambda x: str(datetime.fromtimestamp(int(x) / 1000.0)))`. -/

/-- Round a rational to the nearest integer, ties to even: the rounding the
IEEE-754 default mode applies to the exact quotient of a float division. -/
def roundHalfEven (q : ℚ) : ℤ :=
  if Int.fract q < 1/2 then ⌊q⌋
  else if 1/2 < Int.fract q then ⌊q⌋ + 1
  else if ⌊q⌋ % 2 = 0 then ⌊q⌋ else ⌊q⌋ + 1

/-- IEEE-754 binary64 rounding of a nonnegative exact rational (normal
range: the significand is forced to 53 bits at the value's own binade).
Python's `int / int` produces exactly this for the quotients in range. -/
def fl (q : ℚ) : ℚ :=
  if q ≤ 0 then 0
  else (roundHalfEven (q * 2 ^ ((52 : ℤ) - Int.log 2 q)) : ℚ) * 2 ^ (Int.log 2 q - 52)

/-- `lambda x: str(int(int(x)/1000))`: float-divide the millisecond epoch by
1000, truncate toward zero, print in decimal. -/
def get_timestamp (x : Nat) : String :=
  toString (⌊fl ((x : ℚ) / 1000)⌋.toNat)

/-- Civil date from a count of days since 1970-01-01 (proleptic Gregorian),
returned as (year, month, day). -/
def civilFromDays (days : Nat) : Nat × Nat × Nat :=
  let z := days + 719468
  let era := z / 146097
  let doe := z % 146097
  let yoe := (doe - doe / 1460 + doe / 36524 - doe / 146096) / 365
  let y := yoe + era * 400
  let doy := doe - (365 * yoe + yoe / 4 - yoe / 100)
  let mp := (5 * doy + 2) / 153
  let d := doy - (153 * mp + 2) / 5 + 1
  let m := if mp < 10 then mp + 3 else mp - 9
  (if m ≤ 2 then y + 1 else y, m, d)

/-- Zero-pad a numeral to two digits (Python `datetime` field formatting). -/
def pad2 (n : Nat) : String :=
  if n < 10 then "0" ++ toString n else toString n

/-- Zero-pad a numeral to four digits. -/
def pad4 (n : Nat) : String :=
  if n < 10 then "000" ++ toString n
  else if n < 100 then "00" ++ toString n
  else if n < 1000 then "0" ++ toString n
  else toString n

/-- Zero-pad a numeral to six digits (microsecond field). -/
def pad6 (n : Nat) : String :=
  if n < 10 then "00000" ++ toString n
  else if n < 100 then "0000" ++ toString n
  else if n < 1000 then "000" ++ toString n
  else if n < 10000 then "00" ++ toString n
  else if n < 100000 then "0" ++ toString n
  else toString n

/-- `lambda x: str(datetime.fromtimestamp(int(x) / 1000.0))`: the
millisecond epoch rendered as `YYYY-MM-DD HH:MM:SS[.ffffff]`, the
microsecond suffix omitted exactly when it is zero.  `fromtimestamp` is
modelled at UTC; for a whole-millisecond input the float quotient rounds to
the exact microsecond, so seconds and microseconds are derived exactly. -/
def get_datetime (ts : Nat) : String :=
  let secs := ts / 1000
  let micros := ts % 1000 * 1000
  let days := secs / 86400
  let sod := secs % 86400
  let ymd := civilFromDays days
  pad4 ymd.1 ++ "-" ++ pad2 ymd.2.1 ++ "-" ++ pad2 ymd.2.2 ++ " " ++
    pad2 (sod / 3600) ++ ":" ++ pad2 (sod % 3600 / 60) ++ ":" ++ pad2 (sod % 60) ++
    (if micros = 0 then "" else "." ++ pad6 micros)

/-- ISO-8601 weekday, Monday = 1 … Sunday = 7 (1970-01-01 was a Thursday). -/
def isoWeekday (days : Nat) : Nat :=
  (days + 3) % 7 + 1

/-- Whether a proleptic-Gregorian year is a leap year. -/
def isLeapYear (y : Nat) : Bool :=
  y % 4 = 0 && (y % 100 ≠ 0 || y % 400 = 0)

/-- Day-of-year (1-based) of a civil date. -/
def dayOfYear (y m d : Nat) : Nat :=
  let lens : List Nat :=
    [31, if isLeapYear y then 29 else 28, 31, 30, 31, 30, 31, 31, 30, 31, 30, 31]
  (lens.take (m - 1)).foldl (· + ·) 0 + d

/-- Number of ISO weeks in a year (52 or 53). -/
def isoWeeksInYear (y : Nat) : Nat :=
  let p : Nat → Nat := fun x => (x + x / 4 - x / 100 + x / 400) % 7
  if p y = 4 || p (y - 1) = 3 then 53 else 52

/-- Spark `weekofyear`: the ISO-8601 week number of the date carried by a
day count since the epoch. -/
def weekOfYear (days : Nat) : Nat :=
  let ymd := civilFromDays days
  let n := dayOfYear ymd.1 ymd.2.1 ymd.2.2
  let wd := isoWeekday days
  let w := (n + 10 - wd) / 7
  if w = 0 then isoWeeksInYear (ymd.1 - 1)
  else if w = 53 && isoWeeksInYear ymd.1 ≠ 53 then 1
  else w

/-! ### Catalog pipeline: `songs` and `artists` -/

/-- Row of the `songs` table. -/
structure SongRow where
  song_id : String
  title : String
  artist_id : String
  year : Int
  duration : Rat
  deriving DecidableEq, Repr

/-- The projection `df['song_id', 'title', 'artist_id', 'year', 'duration']`. -/
def songProj (r : CatalogRecord) : SongRow :=
  ⟨r.song_id, r.title, r.artist_id, r.year, r.duration⟩

/-- `songs_table = df[...].dropDuplicates(['song_id'])`. -/
def songs_table (df : List CatalogRecord) : List SongRow :=
  dropDuplicatesBy (fun r => r.song_id) (df.map songProj)

/-- Row of the `artists` table. -/
structure ArtistRow where
  artist_id : String
  artist_name : String
  artist_location : String
  artist_latitude : Option Rat
  artist_longitude : Option Rat
  deriving DecidableEq, Repr

/-- The projection `df['artist_id', 'artist_name', 'artist_location',
'artist_latitude', 'artist_longitude']`. -/
def artistProj (r : CatalogRecord) : ArtistRow :=
  ⟨r.artist_id, r.artist_name, r.artist_location, r.artist_latitude, r.artist_longitude⟩

/-- `artists_table = df[...].dropDuplicates(['artist_id'])`. -/
def artists_table (df : List CatalogRecord) : List ArtistRow :=
  dropDuplicatesBy (fun r => r.artist_id) (df.map artistProj)

/-! ### Event pipeline: `users`, `time`, and the joined frame -/

/-- `df.filter(df.page == 'NextSong')`. -/
def filterNextSong (logs : List EventRecord) : List EventRecord :=
  logs.filter (fun e => e.page == "NextSong")

/-- Row of the `users` table. -/
structure UserRow where
  userId : String
  firstName : String
  lastName : String
  gender : String
  level : String
  deriving DecidableEq, Repr

/-- The projection `df['userId', 'firstName', 'lastName', 'gender', 'level']`. -/
def userProj (e : EventRecord) : UserRow :=
  ⟨e.userId, e.firstName, e.lastName, e.gender, e.level⟩

/-- `users_table = df[...].dropDuplicates(['userId'])` over the filtered frame. -/
def users_table (logs : List EventRecord) : List UserRow :=
  dropDuplicatesBy (fun r => r.userId) ((filterNextSong logs).map userProj)

/-- Row of the `time` table. -/
structure TimeRow where
  start_time : String
  hour : Nat
  day : Nat
  week : Nat
  month : Nat
  year : Nat
  deriving DecidableEq, Repr

/-- The calendar month carried by a millisecond timestamp (value of Spark
`month` applied to the `datetime` column derived from `ts`). -/
def monthOfTs (ts : Nat) : Nat :=
  (civilFromDays (ts / 1000 / 86400)).2.1

/-- The `time`-table projection of one retained event: `start_time` is the
`datetime` column and the calendar fields are Spark `hour`, `dayofmonth`,
`weekofyear`, `month`, `year` applied to it. -/
def timeRowOf (e : EventRecord) : TimeRow :=
  let secs := e.ts / 1000
  let days := secs / 86400
  let ymd := civilFromDays days
  { start_time := get_datetime e.ts
    hour := secs % 86400 / 3600
    day := ymd.2.2
    week := weekOfYear days
    month := ymd.2.1
    year := ymd.1 }

/-- `time_table = df.select(...).dropDuplicates(['start_time'])` over the
filtered frame. -/
def time_table (logs : List EventRecord) : List TimeRow :=
  dropDuplicatesBy (fun r => r.start_time) ((filterNextSong logs).map timeRowOf)

/-- An event row after the two `withColumn` calls added the string columns
`timestamp` and `datetime`. -/
structure LogWithTs where
  event : EventRecord
  timestamp : String
  datetime : String
  deriving DecidableEq, Repr

/-- `df.withColumn('timestamp', get_timestamp(df.ts)).withColumn('datetime',
get_datetime(df.ts))`. -/
def withTsCols (e : EventRecord) : LogWithTs :=
  ⟨e, get_timestamp e.ts, get_datetime e.ts⟩

/-- One row of `df.join(song_df, song_df.title == df.song)`: all log-side
columns next to all song-side columns. -/
structure JoinedRow where
  log : LogWithTs
  songRec : CatalogRecord
  deriving DecidableEq, Repr

/-- The inner join `df.join(song_df, song_df.title == df.song)`, where `df`
is the filtered log frame with the two added string columns. -/
def joined_df (logs : List EventRecord) (song_df : List CatalogRecord) : List JoinedRow :=
  ((filterNextSong logs).map withTsCols).flatMap fun l =>
    (song_df.filter fun s => s.title == l.event.song).map fun s => ⟨l, s⟩

/-! ### The `songplays` selection

The select on the joined frame is written with `col(name)` references, so it
is resolved by column NAME by Spark's analyzer.  The embedding mirrors that:
`resolveJoined` maps each column name of the joined frame to its value, and
any other name — in particular the misspelt `'ssessionId'` the source
writes — fails to resolve. -/

/-- A column value of the joined frame. -/
inductive Value where
  | str : String → Value
  | int : Int → Value
  | rat : Rat → Value
  | nullableRat : Option Rat → Value
  deriving DecidableEq, Repr

/-- Name-based column resolution on the joined frame.  Log-side and
song-side column names are disjoint, so no reference is ambiguous; the
unqualified name `year` resolves to the song record's release year because
the event log carries no `year` column. -/
def resolveJoined (j : JoinedRow) : String → Option Value
  | "userId" => some (.str j.log.event.userId)
  | "firstName" => some (.str j.log.event.firstName)
  | "lastName" => some (.str j.log.event.lastName)
  | "gender" => some (.str j.log.event.gender)
  | "level" => some (.str j.log.event.level)
  | "ts" => some (.int j.log.event.ts)
  | "page" => some (.str j.log.event.page)
  | "song" => some (.str j.log.event.song)
  | "location" => some (.str j.log.event.location)
  | "userAgent" => some (.str j.log.event.userAgent)
  | "sessionId" => some (.int j.log.event.sessionId)
  | "timestamp" => some (.str j.log.timestamp)
  | "datetime" => some (.str j.log.datetime)
  | "song_id" => some (.str j.songRec.song_id)
  | "title" => some (.str j.songRec.title)
  | "artist_id" => some (.str j.songRec.artist_id)
  | "year" => some (.int j.songRec.year)
  | "duration" => some (.rat j.songRec.duration)
  | "artist_name" => some (.str j.songRec.artist_name)
  | "artist_location" => some (.str j.songRec.artist_location)
  | "artist_latitude" => some (.nullableRat j.songRec.artist_latitude)
  | "artist_longitude" => some (.nullableRat j.songRec.artist_longitude)
  | _ => none

/-- The column names of the joined frame (domain of `resolveJoined`). -/
def joinedColumns : List String :=
  ["userId", "firstName", "lastName", "gender", "level", "ts", "page", "song",
   "location", "userAgent", "sessionId", "timestamp", "datetime",
   "song_id", "title", "artist_id", "year", "duration",
   "artist_name", "artist_location", "artist_latitude", "artist_longitude"]

/-- The `col(...)` references of the `songplays` select, verbatim from the
source — including the misspelt `'ssessionId'` (aliased `session_id`). -/
def songplaysSelectCols : List String :=
  ["ts", "userId", "level", "song_id", "artist_id", "ssessionId",
   "location", "userAgent", "year"]

/-- Row of the `songplays` table before the id column is appended. -/
structure SongplayRow where
  ts : Value
  user_id : Value
  level : Value
  song_id : Value
  artist_id : Value
  session_id : Value
  location : Value
  user_agent : Value
  year : Value
  month : Value
  deriving DecidableEq, Repr

/-- Resolve one `col(c)` reference or fail with Spark's analysis error. -/
def req (j : JoinedRow) (c : String) : Except String Value :=
  match resolveJoined j c with
  | some v => .ok v
  | none => .error ("cannot resolve column " ++ c)

/-- Row-wise form of the `songplays` select: each `col(...)` reference is
resolved by name; `month('datetime')` is the calendar month of the
`ts`-derived datetime. -/
def selectSongplay (j : JoinedRow) : Except String SongplayRow := do
  let ts ← req j "ts"
  let user_id ← req j "userId"
  let level ← req j "level"
  let song_id ← req j "song_id"
  let artist_id ← req j "artist_id"
  let session_id ← req j "ssessionId"
  let location ← req j "location"
  let user_agent ← req j "userAgent"
  let year ← req j "year"
  pure ⟨ts, user_id, level, song_id, artist_id, session_id, location, user_agent,
        year, .int (monthOfTs j.log.event.ts)⟩

/-- `songplays_table = df.select(col('ts'), ..., col('ssessionId'), ...)
.withColumn('songplay_id', monotonically_increasing_id())`.

As in Spark, analysis happens before any row is produced: if some selected
column name does not occur in the joined frame's schema the whole stage
fails, whatever the data.  On success `monotonically_increasing_id` is
modelled as the row index. -/
def songplays_table (logs : List EventRecord) (song_df : List CatalogRecord) :
    Except String (List (SongplayRow × Nat)) :=
  match songplaysSelectCols.find? (fun c => !(joinedColumns.contains c)) with
  | some c => .error ("cannot resolve column " ++ c)
  | none => do
    let rows ← (joined_df logs song_df).mapM selectSongplay
    pure (rows.enum.map fun p => (p.2, p.1))

/-! ### Output storage and the two pipeline functions

Output storage is one slot per table; a parquet write in `'overwrite'` mode
replaces the slot's whole contents.  A slot that was never written keeps
whatever a previous run (or nothing) left there, which is how a crash
mid-run leaves a mix of old and new tables. -/

/-- Contents of the five output paths under the output root. -/
structure OutputState where
  songs : Option (List SongRow)
  artists : Option (List ArtistRow)
  users : Option (List UserRow)
  time : Option (List TimeRow)
  songplays : Option (List (SongplayRow × Nat))
  deriving DecidableEq, Repr

/-- `process_song_data`: derive and overwrite `songs` and `artists`. -/
def process_song_data (df : List CatalogRecord) (s : OutputState) : OutputState :=
  { s with songs := some (songs_table df), artists := some (artists_table df) }

/-- `process_log_data`: overwrite `users`, then `time`, then build
`songplays`; the `songplays` write happens only if its select succeeds, and
a failure is the run's fatal error. -/
def process_log_data (logs : List EventRecord) (song_df : List CatalogRecord)
    (s : OutputState) : OutputState × Option String :=
  let s1 := { s with users := some (users_table logs) }
  let s2 := { s1 with time := some (time_table logs) }
  match songplays_table logs song_df with
  | .error e => (s2, some e)
  | .ok rows => ({ s2 with songplays := some rows }, none)

/-- One full run: `process_song_data` then `process_log_data` against fixed
input datasets, returning the resulting storage and the fatal error, if
any. -/
def run_once (df : List CatalogRecord) (logs : List EventRecord)
    (s : OutputState) : OutputState × Option String :=
  process_log_data logs df (process_song_data df s)

/-! ### Startup: credential loading from `dl.cfg`

`config = configparser.ConfigParser(); config.read('dl.cfg')` followed by
two `os.environ[...] = config['KEYS'][...]` assignments at module level,
before either pipeline function can run.  A missing section or key raises
an uncaught `KeyError`. -/

/-- A parsed configuration file: sections of key-value pairs. -/
abbrev ConfigFile := List (String × List (String × String))

/-- `config[sect][key]`, `none` when the section or the key is absent (the
situation in which `configparser` raises `KeyError`). -/
def configGet (cfg : ConfigFile) (sect key : String) : Option String :=
  match cfg.lookup sect with
  | none => none
  | some kvs => kvs.lookup key

/-- The process environment. -/
abbrev Env := List (String × String)

/-- `os.environ[key] = v`. -/
def envSet (env : Env) (key v : String) : Env :=
  (key, v) :: env.filter (fun p => p.1 ≠ key)

/-- `os.environ.get(key)`. -/
def envGet (env : Env) (key : String) : Option String :=
  (env.lookup key)

/-- The module-level startup: read `dl.cfg` once and copy the two
credential keys into the environment, in source order; the first absent
key aborts with `KeyError`. -/
def etl_startup (cfg : ConfigFile) (env : Env) : Env × Option String :=
  match configGet cfg "KEYS" "AWS_ACCESS_KEY_ID" with
  | none => (env, some "KeyError")
  | some ak =>
    let env1 := envSet env "AWS_ACCESS_KEY_ID" ak
    match configGet cfg "KEYS" "AWS_SECRET_ACCESS_KEY" with
    | none => (env1, some "KeyError")
    | some sk => (envSet env1 "AWS_SECRET_ACCESS_KEY" sk, none)

/-- Result of one invocation of the script. -/
structure RunResult where
  env : Env
  outputs : OutputState
  fatal : Option String
  deriving DecidableEq, Repr

/-- The whole program: module-level startup first; only if it succeeds does
`main` run `process_song_data` and then `process_log_data`. -/
def etl_program (cfg : ConfigFile) (env : Env) (df : List CatalogRecord)
    (logs : List EventRecord) (s : OutputState) : RunResult :=
  match etl_startup cfg env with
  | (env1, some e) => ⟨env1, s, some e⟩
  | (env1, none) =>
    let r := run_once df logs s
    ⟨env1, r.1, r.2⟩

/-! ### Concrete fixtures

Values taken from the project's sample data (the C1 scenario record and
event) plus small synthetic records for the fan-out and configuration
scenarios. -/

/-- The song record of the end-to-end scenario. -/
def songC1 : CatalogRecord :=
  { song_id := "SOZCTXZ12AB0182364", title := "Setanta matins",
    artist_id := "AR5KOSW1187FB35FF4", year := 0, duration := 269.58,
    artist_name := "Elena", artist_location := "Dubai UAE",
    artist_latitude := some 49.80388, artist_longitude := some 15.47491 }

/-- The NextSong event of the end-to-end scenario. -/
def eventC1 : EventRecord :=
  { userId := "10", firstName := "Sylvie", lastName := "Cruz", gender := "F",
    level := "free", ts := 1541990258796, page := "NextSong",
    song := "Setanta matins", location := "Washington-Arlington-Alexandria, DC-VA-MD-WV",
    userAgent := "Mozilla/5.0", sessionId := 582 }

/-- A different event carrying the same `ts` as `eventC1`. -/
def eventC5 : EventRecord :=
  { userId := "77", firstName := "Ann", lastName := "Lee", gender := "F",
    level := "paid", ts := 1541990258796, page := "NextSong",
    song := "Another Song", location := "Boston", userAgent := "Safari",
    sessionId := 9 }

/-- First of two songs sharing one title across two artists. -/
def songA : CatalogRecord :=
  { song_id := "SOAAA111", title := "Same Title", artist_id := "AR1",
    year := 1999, duration := 180.5, artist_name := "First Artist",
    artist_location := "NY", artist_latitude := none, artist_longitude := none }

/-- Second of two songs sharing one title across two artists. -/
def songB : CatalogRecord :=
  { song_id := "SOBBB222", title := "Same Title", artist_id := "AR2",
    year := 2005, duration := 200.25, artist_name := "Second Artist",
    artist_location := "LA", artist_latitude := none, artist_longitude := none }

/-- One NextSong event whose `song` field matches both catalog titles. -/
def eventSame : EventRecord :=
  { userId := "42", firstName := "Jo", lastName := "Doe", gender := "M",
    level := "paid", ts := 1542837407796, page := "NextSong",
    song := "Same Title", location := "Chicago", userAgent := "Firefox",
    sessionId := 100 }

/-- A catalog record whose release year (1971) differs from the calendar
year of any 2018 event joined to it. -/
def songC7 : CatalogRecord :=
  { song_id := "SOGHJKL9", title := "Old Tune", artist_id := "AR9",
    year := 1971, duration := 95.0, artist_name := "Oldie",
    artist_location := "Memphis", artist_latitude := none, artist_longitude := none }

/-- A NextSong event joined to `songC7`. -/
def eventC7 : EventRecord :=
  { userId := "5", firstName := "Kim", lastName := "Park", gender := "F",
    level := "free", ts := 1543363215796, page := "NextSong",
    song := "Old Tune", location := "Austin", userAgent := "Chrome",
    sessionId := 77 }

/-- A configuration file carrying both required keys. -/
def cfgFull : ConfigFile :=
  [("KEYS", [("AWS_ACCESS_KEY_ID", "AKIAEXAMPLE"),
             ("AWS_SECRET_ACCESS_KEY", "wJalrXUtnFEMI")])]

/-- A configuration file whose KEYS section is empty (the `config.read` of
a missing or empty `dl.cfg` yields this shape). -/
def cfgMissing : ConfigFile := [("KEYS", [])]

/-- Output storage before any run. -/
def emptyOutputs : OutputState := ⟨none, none, none, none, none⟩
theorem mem_of_mem_dropDuplicatesByAux {α κ : Type} [DecidableEq κ] (key : α → κ) :
    ∀ (seen : List κ) (l : List α) (y : α), y ∈ dropDuplicatesByAux key seen l → y ∈ l := by
  intro seen l
  induction l generalizing seen with
  | nil => intro y h; simp [dropDuplicatesByAux] at h
  | cons x xs ih =>
    intro y h
    simp only [dropDuplicatesByAux] at h
    by_cases hk : key x ∈ seen
    · simp [hk] at h
      exact List.mem_cons_of_mem _ (ih _ _ h)
    · simp [hk] at h
      rcases h with h | h
      · simp [h]
      · exact List.mem_cons_of_mem _ (ih _ _ h)

theorem mem_of_mem_dropDuplicatesBy {α κ : Type} [DecidableEq κ] (key : α → κ)
    (l : List α) (y : α) (h : y ∈ dropDuplicatesBy key l) : y ∈ l :=
  mem_of_mem_dropDuplicatesByAux key [] l y h

theorem dropDuplicatesByAux_key_invariant {α κ : Type} [DecidableEq κ] (key : α → κ) :
    ∀ (seen : List κ) (l : List α),
      ((dropDuplicatesByAux key seen l).map key).Nodup ∧
      ∀ y ∈ dropDuplicatesByAux key seen l, key y ∉ seen := by
  intro seen l
  induction l generalizing seen with
  | nil => simp [dropDuplicatesByAux]
  | cons x xs ih =>
    by_cases hk : key x ∈ seen
    · simpa [dropDuplicatesByAux, hk] using ih seen
    · have ih' := ih (key x :: seen)
      refine ⟨?_, ?_⟩
      · simp only [dropDuplicatesByAux, hk, if_false, List.map_cons, List.nodup_cons]
        constructor
        · intro hmem
          rcases List.mem_map.1 hmem with ⟨y, hy, hky⟩
          exact (ih'.2 y hy) (by simp [hky])
        · exact ih'.1
      · intro y hy
        simp only [dropDuplicatesByAux, hk, if_false, List.mem_cons] at hy
        rcases hy with rfl | hy
        · exact hk
        · intro hsy
          exact (ih'.2 y hy) (List.mem_cons_of_mem _ hsy)

/-- The keys of a `dropDuplicatesBy` output are pairwise distinct: at most
one surviving row per key value. -/
theorem nodup_keys_dropDuplicatesBy {α κ : Type} [DecidableEq κ] (key : α → κ)
    (l : List α) : ((dropDuplicatesBy key l).map key).Nodup :=
  (dropDuplicatesByAux_key_invariant key [] l).1


/-! ### Helper lemmas: environment, selection failure, rounding -/

theorem lookup_filter_ne (k k' : String) (h : k ≠ k') (env : Env) :
    List.lookup k (env.filter fun p => decide (p.1 ≠ k')) = List.lookup k env := by
  induction env with
  | nil => rfl
  | cons p ps ih =>
    simp only [ne_eq, decide_not] at ih
    by_cases hp : p.1 = k'
    · simp [List.filter_cons, hp, List.lookup,
        show (k == k') = false from by simpa using h, ih]
    · by_cases hk : k = p.1
      · simp [List.filter_cons, hp, List.lookup, hk]
      · simp [List.filter_cons, hp, List.lookup,
          show (k == p.1) = false from by simpa using hk, ih]

theorem envGet_envSet_self (env : Env) (k v : String) :
    envGet (envSet env k v) k = some v := by
  simp [envGet, envSet, List.lookup]

theorem envGet_envSet_other (env : Env) (k k' v : String) (h : k ≠ k') :
    envGet (envSet env k' v) k = envGet env k := by
  have hk : (k == k') = false := by simpa using h
  simp only [envGet, envSet, List.lookup, hk]
  exact lookup_filter_ne k k' h env

/-- The `songplays` select always fails at analysis: `'ssessionId'` is not a
column of the joined frame, whatever the input data. -/
theorem songplays_table_always_fails (logs : List EventRecord)
    (song_df : List CatalogRecord) :
    songplays_table logs song_df = Except.error "cannot resolve column ssessionId" :=
  rfl

theorem roundHalfEven_intCast (n : ℤ) : roundHalfEven (n : ℚ) = n := by
  unfold roundHalfEven
  rw [Int.fract_intCast, if_pos (by norm_num), Int.floor_intCast]

/-- Round-to-nearest never moves a value by more than half a unit. -/
theorem abs_roundHalfEven_sub_le (q : ℚ) : |(roundHalfEven q : ℚ) - q| ≤ 1 / 2 := by
  have h0 := Int.fract_nonneg q
  have h1 := Int.fract_lt_one q
  have hsf := Int.self_sub_floor q
  unfold roundHalfEven
  split_ifs with hlt hgt hev <;>
    · rw [abs_le]
      constructor <;> push_cast <;> linarith

/-- Half-ulp bound: binary64 rounding moves a positive rational by at most
`2 ^ (e - 53)` where `e` is its binade exponent. -/
theorem abs_fl_sub_le (q : ℚ) (hq : 0 < q) :
    |fl q - q| ≤ 2 ^ (Int.log 2 q - 53) := by
  have h20 : (2:ℚ) ≠ 0 := by norm_num
  have hpow : (0:ℚ) < 2 ^ (Int.log 2 q - 52) := zpow_pos (by norm_num) _
  have hq' : q * 2 ^ ((52:ℤ) - Int.log 2 q) * 2 ^ (Int.log 2 q - 52) = q := by
    rw [mul_assoc, ← zpow_add₀ h20]
    norm_num
  have h1 : fl q = (roundHalfEven (q * 2 ^ ((52:ℤ) - Int.log 2 q)) : ℚ) *
      2 ^ (Int.log 2 q - 52) := by
    rw [fl, if_neg (not_le.2 hq)]
  have h3 : fl q - q = ((roundHalfEven (q * 2 ^ ((52:ℤ) - Int.log 2 q)) : ℚ) -
      q * 2 ^ ((52:ℤ) - Int.log 2 q)) * 2 ^ (Int.log 2 q - 52) := by
    rw [h1, sub_mul, hq']
  rw [h3, abs_mul, abs_of_pos hpow]
  have h5 := mul_le_mul_of_nonneg_right
    (abs_roundHalfEven_sub_le (q * 2 ^ ((52:ℤ) - Int.log 2 q))) (le_of_lt hpow)
  refine h5.trans (le_of_eq ?_)
  rw [show (1:ℚ)/2 = 2 ^ (-1 : ℤ) by norm_num, ← zpow_add₀ h20]
  congr 1
  ring

/-- Binary64 rounding is exact on integers below `2 ^ 53`. -/
theorem fl_natCast (k : ℕ) (hk : 1 ≤ k) (hk53 : k < 2 ^ 53) : fl (k:ℚ) = k := by
  have h20 : (2:ℚ) ≠ 0 := by norm_num
  have hq : (0:ℚ) < (k:ℚ) := by exact_mod_cast hk
  have helog : Int.log 2 (k:ℚ) = (Nat.log 2 k : ℤ) := Int.log_natCast 2 k
  have hm : ((52:ℤ) - Int.log 2 (k:ℚ)) = ((52 - Nat.log 2 k : ℕ) : ℤ) := by
    rw [helog]
    have := Nat.log_lt_of_lt_pow (by omega : k ≠ 0) hk53
    omega
  have ht : (k:ℚ) * 2 ^ ((52:ℤ) - Int.log 2 (k:ℚ)) =
      (((k * 2 ^ (52 - Nat.log 2 k) : ℕ) : ℤ) : ℚ) := by
    rw [hm, zpow_natCast]
    push_cast
    ring
  rw [fl, if_neg (not_le.2 hq), ht, roundHalfEven_intCast]
  push_cast
  rw [show ((2:ℚ) ^ (52 - Nat.log 2 k)) = 2 ^ (((52 - Nat.log 2 k : ℕ)) : ℤ) from
    (zpow_natCast 2 _).symm, ← hm, mul_assoc, ← zpow_add₀ h20]
  norm_num

/-! ### The claims -/

/-- C1: on the end-to-end scenario input — one catalog record for
"Setanta matins" and one NextSong event for user 10, session 582 — the
title join does pair the event with song SOZCTXZ12AB0182364, but the
join-and-select stage produces no songplays row at all: the select refers
to the nonexistent column `ssessionId` (the log column is `sessionId`) and
fails analysis, so the claimed output row with session_id 582 and a
non-null songplay_id never exists. -/
theorem c1_scenario_select_fails_on_ssessionId :
    (joined_df [eventC1] [songC1]).map (fun j =>
      (j.songRec.song_id, j.log.event.userId, j.log.event.sessionId)) =
      [("SOZCTXZ12AB0182364", "10", 582)] ∧
    songplays_table [eventC1] [songC1] = Except.error "cannot resolve column ssessionId" :=
  ⟨by decide, rfl⟩

/-- C2: for every input dataset, each keyed output table has pairwise
distinct key values — `songs` per song_id, `artists` per artist_id,
`users` per userId, and `time` per start_time — because each is built with
`dropDuplicates` on exactly that key. -/
theorem c2_outputs_unique_per_key (df : List CatalogRecord) (logs : List EventRecord) :
    ((songs_table df).map SongRow.song_id).Nodup ∧
    ((artists_table df).map ArtistRow.artist_id).Nodup ∧
    ((users_table logs).map UserRow.userId).Nodup ∧
    ((time_table logs).map TimeRow.start_time).Nodup :=
  ⟨nodup_keys_dropDuplicatesBy _ _, nodup_keys_dropDuplicatesBy _ _,
   nodup_keys_dropDuplicatesBy _ _, nodup_keys_dropDuplicatesBy _ _⟩

/-- C3: each row of `users` and `time`, and each row of the joined frame
that the `songplays` stage consumes, derives from an input event whose
`page` equals "NextSong"; events failing the filter contribute to none of
the three derivations. -/
theorem c3_filter_provenance (logs : List EventRecord) (song_df : List CatalogRecord) :
    (∀ u ∈ users_table logs, ∃ e ∈ logs, e.page = "NextSong" ∧ userProj e = u) ∧
    (∀ t ∈ time_table logs, ∃ e ∈ logs, e.page = "NextSong" ∧ timeRowOf e = t) ∧
    (∀ j ∈ joined_df logs song_df, j.log.event ∈ logs ∧ j.log.event.page = "NextSong") := by
  refine ⟨?_, ?_, ?_⟩
  · intro u hu
    have hu' := mem_of_mem_dropDuplicatesBy _ _ _ hu
    rcases List.mem_map.1 hu' with ⟨e, he, rfl⟩
    rcases List.mem_filter.1 he with ⟨hel, hep⟩
    exact ⟨e, hel, by simpa using hep, rfl⟩
  · intro t ht
    have ht' := mem_of_mem_dropDuplicatesBy _ _ _ ht
    rcases List.mem_map.1 ht' with ⟨e, he, rfl⟩
    rcases List.mem_filter.1 he with ⟨hel, hep⟩
    exact ⟨e, hel, by simpa using hep, rfl⟩
  · intro j hj
    rcases List.mem_flatMap.1 hj with ⟨l, hl, hj'⟩
    rcases List.mem_map.1 hj' with ⟨s, _, rfl⟩
    rcases List.mem_map.1 hl with ⟨e, he, rfl⟩
    rcases List.mem_filter.1 he with ⟨hel, hep⟩
    exact ⟨hel, by simpa using hep⟩

theorem c3_filter_provenance_witness :
    (∃ e ∈ [eventC1], e.page = "NextSong" ∧ userProj e = userProj eventC1) ∧
    (∃ e ∈ [eventC1], e.page = "NextSong" ∧ timeRowOf e = timeRowOf eventC1) ∧
    ((⟨withTsCols eventC1, songC1⟩ : JoinedRow).log.event ∈ [eventC1] ∧
      (⟨withTsCols eventC1, songC1⟩ : JoinedRow).log.event.page = "NextSong") :=
  ⟨(c3_filter_provenance [eventC1] [songC1]).1 (userProj eventC1) (by decide),
   (c3_filter_provenance [eventC1] [songC1]).2.1 (timeRowOf eventC1) (by decide),
   (c3_filter_provenance [eventC1] [songC1]).2.2 ⟨withTsCols eventC1, songC1⟩ (by
     have h : joined_df [eventC1] [songC1] = [⟨withTsCols eventC1, songC1⟩] := rfl
     rw [h]
     exact List.mem_singleton.2 rfl)⟩

/-- C4: with two catalog records sharing the title "Same Title" under two
artists, one matching NextSong event fans out to exactly two joined rows,
one per artist — but the `songplays` output itself is never produced,
because the select fails analysis on the misspelt column `ssessionId`. -/
theorem c4_fanout_two_rows_but_select_fails :
    (joined_df [eventSame] [songA, songB]).map (fun j => j.songRec.artist_id) =
      ["AR1", "AR2"] ∧
    (joined_df [eventSame] [songA, songB]).length = 2 ∧
    songplays_table [eventSame] [songA, songB] =
      Except.error "cannot resolve column ssessionId" :=
  ⟨by decide, by decide, rfl⟩

/-- C5: the `time` table's start_time is a deterministic function of the
event's `ts` alone — any two events with equal `ts` get the identical
start_time string — and on ts = 1541990258796 that string is
"2018-11-12 02:37:38.796000". -/
theorem c5_start_time_deterministic_in_ts :
    (∀ e1 e2 : EventRecord, e1.ts = e2.ts →
      (timeRowOf e1).start_time = (timeRowOf e2).start_time) ∧
    get_datetime 1541990258796 = "2018-11-12 02:37:38.796000" := by
  constructor
  · intro e1 e2 h
    show get_datetime e1.ts = get_datetime e2.ts
    rw [h]
  · decide

theorem c5_start_time_deterministic_in_ts_witness :
    (timeRowOf eventC1).start_time = (timeRowOf eventC5).start_time :=
  c5_start_time_deterministic_in_ts.1 eventC1 eventC5 rfl

/-- C6: running the pipeline twice against unchanged input leaves exactly
the state the first run left: every table written (all in overwrite mode)
is overwritten with identical contents, and the slot the crashed
`songplays` stage never writes is untouched both times. -/
theorem c6_rerun_produces_identical_outputs (df : List CatalogRecord)
    (logs : List EventRecord) (s : OutputState) :
    run_once df logs (run_once df logs s).1 = run_once df logs s := by
  simp [run_once, process_song_data, process_log_data, songplays_table_always_fails]

/-- C7: the unqualified column reference `year` on the joined frame
resolves to the song record's release year (the event log carries no
`year` column), as the claim says — but no songplays output row ever
carries it, because the same select fails analysis on `ssessionId`. -/
theorem c7_year_resolves_to_song_side :
    (∀ j : JoinedRow, resolveJoined j "year" = some (Value.int j.songRec.year)) ∧
    songplays_table [eventC7] [songC7] = Except.error "cannot resolve column ssessionId" :=
  ⟨fun _ => rfl, rfl⟩

/-- C8: no run ever assigns a songplay_id: for every input, the
`songplays` stage fails analysis on the misspelt column `ssessionId`
before `monotonically_increasing_id` could attach the identifier. -/
theorem c8_no_songplay_id_is_ever_assigned (logs : List EventRecord)
    (song_df : List CatalogRecord) :
    songplays_table logs song_df = Except.error "cannot resolve column ssessionId" :=
  rfl

/-- C9: if either credential key is absent from the KEYS section, the
program aborts with the uncaught KeyError before either pipeline writes
anything (the outputs are untouched); if both are present, both values land
in the process environment. -/
theorem c9_startup_reads_config_first (cfg : ConfigFile) (env : Env)
    (df : List CatalogRecord) (logs : List EventRecord) (s : OutputState) :
    ((configGet cfg "KEYS" "AWS_ACCESS_KEY_ID" = none ∨
        configGet cfg "KEYS" "AWS_SECRET_ACCESS_KEY" = none) →
      (etl_program cfg env df logs s).fatal = some "KeyError" ∧
      (etl_program cfg env df logs s).outputs = s) ∧
    (∀ ak sk, configGet cfg "KEYS" "AWS_ACCESS_KEY_ID" = some ak →
      configGet cfg "KEYS" "AWS_SECRET_ACCESS_KEY" = some sk →
      envGet (etl_program cfg env df logs s).env "AWS_ACCESS_KEY_ID" = some ak ∧
      envGet (etl_program cfg env df logs s).env "AWS_SECRET_ACCESS_KEY" = some sk) := by
  constructor
  · intro h
    match h1 : configGet cfg "KEYS" "AWS_ACCESS_KEY_ID" with
    | none => simp [etl_program, etl_startup, h1]
    | some ak =>
      match h2 : configGet cfg "KEYS" "AWS_SECRET_ACCESS_KEY" with
      | none => simp [etl_program, etl_startup, h1, h2]
      | some sk => simp [h1, h2] at h
  · intro ak sk h1 h2
    simp only [etl_program, etl_startup, h1, h2]
    constructor
    · rw [envGet_envSet_other _ _ _ _ (by decide), envGet_envSet_self]
    · rw [envGet_envSet_self]

theorem c9_startup_reads_config_first_witness :
    ((etl_program cfgMissing [] [] [] emptyOutputs).fatal = some "KeyError" ∧
      (etl_program cfgMissing [] [] [] emptyOutputs).outputs = emptyOutputs) ∧
    (envGet (etl_program cfgFull [] [] [] emptyOutputs).env "AWS_ACCESS_KEY_ID" =
        some "AKIAEXAMPLE" ∧
      envGet (etl_program cfgFull [] [] [] emptyOutputs).env "AWS_SECRET_ACCESS_KEY" =
        some "wJalrXUtnFEMI") :=
  ⟨(c9_startup_reads_config_first cfgMissing [] [] [] emptyOutputs).1 (Or.inl rfl),
   (c9_startup_reads_config_first cfgFull [] [] [] emptyOutputs).2
     "AKIAEXAMPLE" "wJalrXUtnFEMI" rfl rfl⟩

/-- C10: for every millisecond timestamp below `2 ^ 53`, the UDF
`str(int(int(x)/1000))` — float division included — returns exactly the
decimal string of the timestamp divided by 1000 and truncated toward zero. -/
theorem c10_get_timestamp_is_floor_div (x : Nat) (hx : x < 2 ^ 53) :
    get_timestamp x = toString (x / 1000) := by
  rcases Nat.eq_zero_or_pos x with rfl | hx0
  · have h1 : ((0:ℕ):ℚ)/1000 = 0 := by norm_num
    show toString (⌊fl (((0:ℕ):ℚ)/1000)⌋.toNat) = toString (0 / 1000)
    rw [h1, fl, if_pos le_rfl]
    simp
  · have hq0 : (0:ℚ) < (x:ℚ)/1000 := by positivity
    have hr1000 : x % 1000 < 1000 := Nat.mod_lt x (by norm_num)
    have hqkr : (x:ℚ)/1000 = ((x / 1000 : ℕ) : ℚ) + ((x % 1000 : ℕ) : ℚ)/1000 := by
      have hxc : (x:ℚ) = 1000 * ((x / 1000 : ℕ) : ℚ) + ((x % 1000 : ℕ) : ℚ) := by
        exact_mod_cast congrArg (Nat.cast (R := ℚ)) (Nat.div_add_mod x 1000).symm
      rw [hxc]
      ring
    have floor_eq : ⌊fl ((x:ℚ)/1000)⌋ = ((x / 1000 : ℕ) : ℤ) := by
      rcases Nat.eq_zero_or_pos (x % 1000) with hr0 | hrpos
      · have hk1 : 1 ≤ x / 1000 := by
          rcases Nat.lt_or_ge x 1000 with h | h
          · omega
          · exact Nat.one_le_div_iff (by norm_num) |>.2 h
        have hk53 : x / 1000 < 2 ^ 53 := lt_of_le_of_lt (Nat.div_le_self x 1000) hx
        have hqk : (x:ℚ)/1000 = ((x / 1000 : ℕ) : ℚ) := by
          rw [hqkr, hr0]
          push_cast
          ring
        rw [hqk, fl_natCast _ hk1 hk53, Int.floor_natCast]
      · have he43 : Int.log 2 ((x:ℚ)/1000) ≤ 43 := by
          have hqlt : (x:ℚ)/1000 < ((2:ℕ):ℚ) ^ (44:ℤ) := by
            push_cast
            rw [div_lt_iff₀ (by norm_num : (0:ℚ) < 1000)]
            have hxq : (x:ℚ) < 9007199254740992 := by exact_mod_cast hx
            have h44 : ((2:ℚ) ^ (44:ℤ)) * 1000 = 17592186044416000 := by norm_num
            rw [h44]
            linarith
          have := (Int.lt_zpow_iff_log_lt (by norm_num) hq0).1 hqlt
          omega
        have herr := abs_fl_sub_le ((x:ℚ)/1000) hq0
        have hbound : (2:ℚ) ^ (Int.log 2 ((x:ℚ)/1000) - 53) ≤ 2 ^ (-10 : ℤ) :=
          zpow_le_zpow_right₀ (by norm_num) (by omega)
        have h1024 : (2:ℚ) ^ (-10 : ℤ) = 1 / 1024 := by norm_num
        rw [h1024] at hbound
        rw [abs_le] at herr
        have hr1 : (1:ℚ) ≤ ((x % 1000 : ℕ) : ℚ) := by exact_mod_cast hrpos
        have hr999 : ((x % 1000 : ℕ) : ℚ) ≤ 999 := by
          exact_mod_cast (by omega : x % 1000 ≤ 999)
        have hlo : ((x / 1000 : ℕ) : ℚ) ≤ fl ((x:ℚ)/1000) := by linarith [herr.1]
        have hhi : fl ((x:ℚ)/1000) < ((x / 1000 : ℕ) : ℚ) + 1 := by linarith [herr.2]
        rw [Int.floor_eq_iff]
        exact ⟨by exact_mod_cast hlo, by exact_mod_cast hhi⟩
    calc get_timestamp x = toString (⌊fl ((x:ℚ)/1000)⌋.toNat) := rfl
      _ = toString ((((x / 1000 : ℕ) : ℤ)).toNat) := by rw [floor_eq]
      _ = toString (x / 1000) := by rw [Int.toNat_natCast]

theorem c10_get_timestamp_is_floor_div_witness :
    1541990258796 < 2 ^ 53 ∧
      get_timestamp 1541990258796 = toString (1541990258796 / 1000) :=
  ⟨by norm_num, c10_get_timestamp_is_floor_div 1541990258796 (by norm_num)⟩
